import Mathlib

/-!
Shallow embedding of the two browser-side handlers of the news-api
repository: the fetch-news click handler (static js, `part_000`) and the
login-form submit handler (`static/js/login.js`).  Network responses,
`JSON.parse`, and the current clock are oracles passed as parameters; the
control flow, string messages and DOM writes are translated line by line
from the source.
-/

namespace NewsApi

/-- Semantics of the JavaScript `x || d` idiom on an optional string field:
an absent field and the empty string are both falsy and fall through to the
default. -/
def jsOr (o : Option String) (d : String) : String :=
  match o with
  | some s => if s = "" then d else s
  | none => d

/-- Truthiness of an optional string field (JS `if (x)`): present and
non-empty. -/
def jsTruthy (o : Option String) : Bool :=
  match o with
  | some s => s ≠ ""
  | none => false

/-- Shape of `article.source` / `rel.source` as consumed by the handler. -/
structure Source where
  name : Option String
  deriving Repr, DecidableEq

/-- Shape of one entry of `article.related_articles` as consumed. -/
structure RelatedArticle where
  title : Option String
  url : Option String
  source : Option Source
  publishedAt : Option String
  deriving Repr, DecidableEq

/-- Shape of one article of the `/fetch_news` response as consumed. -/
structure Article where
  title : Option String
  url : Option String
  category : Option String
  source : Option Source
  publishedAt : Option String
  related_articles : Option (List RelatedArticle)
  deriving Repr, DecidableEq

/-- Parsed JSON body of a `/fetch_news` response (`result` in the source). -/
structure NewsResultJson where
  error : Option String
  articles : Option (List Article)
  is_mock : Bool
  deriving Repr, DecidableEq

/-- The `source?.name || 'Unknown Source'` optional-chaining expression. -/
def sourceNameOf (s : Option Source) : String :=
  jsOr (match s with | some src => src.name | none => none) "Unknown Source"

/-- One `<div>` of the related-articles cell, as interpolated by the render
loop (line 92 of the source). -/
def renderRelDiv (r : RelatedArticle) : String :=
  "<div><a href=\"" ++ jsOr r.url "#" ++ "\" target=\"_blank\">" ++
    jsOr r.title "No Title" ++ "</a> (" ++ sourceNameOf r.source ++ ", " ++
    jsOr r.publishedAt "Unknown Date" ++ ")</div>"

/-- Concatenation of a list of strings, the `.join('')` of line 93. -/
def joinStr : List String → String
  | [] => ""
  | s :: rest => s ++ joinStr rest

/-- The related-articles cell: the joined `<div>`s, or the literal `None`
when the joined string is empty (`${relatedArticles || 'None'}`). -/
def relatedCellStr (rels : List RelatedArticle) : String :=
  let joined := joinStr (rels.map renderRelDiv)
  if joined = "" then "None" else joined

/-- Dynamic parts of one rendered `<tr>` of the news table. -/
structure Row where
  linkHref : String
  linkLabel : String
  linkTarget : String
  category : String
  sourceName : String
  publishedAt : String
  relatedCell : String
  deriving Repr, DecidableEq

/-- Rendering of one article into a table row (lines 88-102). -/
def renderRow (a : Article) : Row :=
  { linkHref := jsOr a.url "#"
    linkLabel := jsOr a.title "No Title"
    linkTarget := "_blank"
    category := jsOr a.category "Unknown"
    sourceName := sourceNameOf a.source
    publishedAt := jsOr a.publishedAt "Unknown Date"
    relatedCell := relatedCellStr (a.related_articles.getD []) }

/-- Data captured by the `downloadButton.onclick` closure (line 106-109):
the rendered articles plus the district and date of the query. -/
structure PdfClosure where
  articles : List Article
  district : String
  date : String
  deriving Repr, DecidableEq

/-- The DOM surface the fetch-news handler reads and writes: the status
area `error-message`, the table body `news-body`, the visibility of the
`download-pdf` control, and the onclick binding of that control. -/
structure Dom where
  status : String
  rows : List Row
  downloadVisible : Bool
  bound : Option PdfClosure
  deriving Repr, DecidableEq

/-- Result of one invocation of the fetch-news click handler: the final DOM
state and whether a network request was issued. -/
structure StepResult where
  dom : Dom
  networkCalled : Bool
  deriving Repr, DecidableEq

/-! Date validation machinery (lines 17-29 of the source). -/

/-- Numeric value of a decimal digit character. -/
def digitVal (c : Char) : Nat := c.toNat - '0'.toNat

/-- Matching of the date string against `^\d{4}-\d{2}-\d{2}$`, returning the
three numeric components on success. -/
def dateRegexMatch (s : String) : Option (Nat × Nat × Nat) :=
  match s.data with
  | [y1, y2, y3, y4, h1, m1, m2, h2, d1, d2] =>
    if y1.isDigit && y2.isDigit && y3.isDigit && y4.isDigit && h1 = '-' &&
        m1.isDigit && m2.isDigit && h2 = '-' && d1.isDigit && d2.isDigit then
      some (1000 * digitVal y1 + 100 * digitVal y2 + 10 * digitVal y3 + digitVal y4,
            10 * digitVal m1 + digitVal m2,
            10 * digitVal d1 + digitVal d2)
    else none
  | _ => none

/-- The `dateRegex.test(date)` check of line 19. -/
def dateRegexTest (s : String) : Bool := (dateRegexMatch s).isSome

/-- Gregorian leap-year rule. -/
def isLeap (y : Nat) : Bool := y % 4 = 0 && (y % 100 ≠ 0 || y % 400 = 0)

/-- Number of days of month `m` of year `y`. -/
def daysInMonth (y m : Nat) : Nat :=
  if m = 2 then (if isLeap y then 29 else 28)
  else if m = 4 || m = 6 || m = 9 || m = 11 then 30
  else 31

/-- Validity of a proleptic-Gregorian calendar date with a four-digit year,
the condition under which the ECMAScript parser accepts the components. -/
def validDate (y m d : Nat) : Bool :=
  1 ≤ m && m ≤ 12 && 1 ≤ d && d ≤ daysInMonth y m

/-- Days from the Unix epoch to civil date `(y, m, d)` (years 0-9999),
standard civil-calendar day-count algorithm. -/
def daysFromCivil (y m d : Nat) : Int :=
  let ys := if m ≤ 2 then y + 399 else y + 400
  let era := ys / 400
  let yoe := ys % 400
  let mp := (m + 9) % 12
  let doy := (153 * mp + 2) / 5 + d - 1
  let doe := yoe * 365 + yoe / 4 - yoe / 100 + doy
  (era : Int) * 146097 + (doe : Int) - 865565

/-- Millisecond timestamp of `y-m-d` at 23:59:59 in UTC+05:30, the instant
denoted by `new Date(date + 'T23:59:59+05:30')` for a valid date. -/
def istEndOfDayMs (y m d : Nat) : Int :=
  (daysFromCivil y m d * 86400 + 86399 - 19800) * 1000

/-- Civil date of a day count from the Unix epoch (inverse of
`daysFromCivil`), standard algorithm. -/
def civilFromDays (days : Int) : Int × Nat × Nat :=
  let z := days + 719468
  let era := z / 146097
  let doe := (z % 146097).toNat
  let yoe := (doe - doe / 1460 + doe / 36524 - doe / 146096) / 365
  let y := era * 400 + yoe
  let doy := doe - (365 * yoe + yoe / 4 - yoe / 100)
  let mp := (5 * doy + 2) / 153
  let d := doy - (153 * mp + 2) / 5 + 1
  let m := if mp < 10 then mp + 3 else mp - 9
  (if m ≤ 2 then y + 1 else y, m, d)

/-- Calendar date of instant `ms` in the UTC+05:30 zone: the current date
"today" as seen from India Standard Time. -/
def istCalendarDate (ms : Int) : Int × Nat × Nat :=
  civilFromDays ((ms / 1000 + 19800) / 86400)

/-- ECMAScript semantics of `new Date(date + 'T23:59:59+05:30').getTime()`
for a `date` string: the instant when the components form a valid calendar
date, `none` (an Invalid Date, `NaN`) otherwise. -/
def jsDateMs (date : String) : Option Int :=
  match dateRegexMatch date with
  | some (y, m, d) => if validDate y m d then some (istEndOfDayMs y m d) else none
  | none => none

/-- The future-date rejection of lines 24-26: `selectedDate > today`.  A
comparison on an Invalid Date is a `NaN` comparison and is false. -/
def futureRejected (date : String) (nowMs : Int) : Bool :=
  match jsDateMs date with
  | some t => nowMs < t
  | none => false

/-! The fetch-news click handler (lines 1-164 of the source). -/

/-- Outcome of the `await fetch('/fetch_news', ...)` call and the following
`await response.text()`: either the fetch itself rejects (network error,
or the 15-second `AbortSignal.timeout` firing with name `TimeoutError`),
or a response arrives with HTTP status `ok` and a body read that yields a
text or fails. -/
inductive FetchOutcome where
  | thrown (name : String) (message : String)
  | got (ok : Bool) (bodyRead : Option String)
  deriving Repr, DecidableEq

/-- Status message of line 158 of the source. -/
def timeoutMessage : String :=
  "Request timed out. Please check your internet connection or try again later."

/-- Status message of line 53. -/
def genericFetchFailure : String := "Failed to fetch news. Please try again later."

/-- Status message of line 81, interpolating the district. -/
def mockMessage (district : String) : String :=
  "No real articles found for " ++ district ++
    ". Displaying sample data. Please verify your Currents API key in .env (get a free key at https://currentsapi.services/en)."

/-- The outer catch of lines 156-163: write the timeout message or
`Error: <message>`, clear the table, hide the download control.  The
onclick binding is not touched. -/
def catchDom (d : Dom) (name message : String) : Dom :=
  { status := if name = "TimeoutError" then timeoutMessage else "Error: " ++ message
    rows := []
    downloadVisible := false
    bound := d.bound }

/-- The body of the `try` block once the fetch has been issued (lines
31-163): response handling, rendering, and the outer catch.  Every path
here has already made the network call. -/
def fetchPhase (jsonParse : String → Except String NewsResultJson)
    (district date : String) (outcome : FetchOutcome) (dom1 : Dom) : Dom :=
  match outcome with
  | .thrown name message => catchDom dom1 name message
  | .got ok bodyRead =>
    let errorText := bodyRead.getD "No response body"
    if ok = false then
      let userMessage :=
        match jsonParse errorText with
        | .ok errorData =>
          match errorData.error with
          | some s => if s = "" then genericFetchFailure else s
          | none => genericFetchFailure
        | .error _ => genericFetchFailure
      catchDom dom1 "Error" userMessage
    else
      match jsonParse errorText with
      | .error parseMsg => catchDom dom1 "SyntaxError" parseMsg
      | .ok result =>
        if jsTruthy result.error then
          { dom1 with
              status := "Server error: " ++ result.error.getD ""
              rows := []
              downloadVisible := false }
        else
          let arts := result.articles.getD []
          if arts.length = 0 then
            { dom1 with
                status := "No articles found for the selected district and date."
                rows := []
                downloadVisible := false }
          else
            let st := if result.is_mock then mockMessage district
                      else "Articles loaded successfully."
            { status := st
              rows := arts.map renderRow
              downloadVisible := arts.length ≠ 0
              bound := some ⟨arts, district, date⟩ }

/-- One invocation of the fetch-news click handler as a pure transition on
the DOM state.  `jsonParse` is the `JSON.parse` oracle (`Except.error`
carries the message of the thrown `SyntaxError`); `outcome` is what the
network does; `nowMs` is `new Date()` at the future-date check. -/
def fetchNewsHandler (jsonParse : String → Except String NewsResultJson)
    (district date : String) (nowMs : Int) (outcome : FetchOutcome)
    (dom0 : Dom) : StepResult :=
  if district = "" then
    ⟨{ dom0 with status := "Please select a district" }, false⟩
  else if date = "" then
    ⟨{ dom0 with status := "Please select a date" }, false⟩
  else if dateRegexTest date = false then
    ⟨{ dom0 with status := "Invalid date format (use YYYY-MM-DD)" }, false⟩
  else if futureRejected date nowMs then
    ⟨{ dom0 with status := "Date cannot be in the future" }, false⟩
  else
    ⟨fetchPhase jsonParse district date outcome
        { dom0 with status := "Fetching news..." }, true⟩

/-! The PDF download sub-flow (lines 106-155 of the source). -/

/-- Outcome of the `await fetch('/generate_pdf', ...)` call and the
following `await pdfResponse.text()`.  `hasBody` records whether the
response carries a non-null body: per the Fetch specification a non-null
body is a one-shot stream, so reading it with `text()` disturbs it and a
later `blob()` on the same response rejects with a `TypeError`. -/
inductive PdfOutcome where
  | thrown (name : String) (message : String)
  | got (ok : Bool) (hasBody : Bool) (bodyRead : Option String)
  deriving Repr, DecidableEq

/-- Message of the `TypeError` thrown by `pdfResponse.blob()` when the body
stream was already consumed by the earlier `pdfResponse.text()` (host
engines phrase it like "Failed to execute 'blob' on 'Response': body
stream already read"). -/
def bodyAlreadyReadMessage : String := "body stream already read"

/-- Status message of line 129. -/
def genericPdfFailure : String := "Failed to generate PDF. Please try again later."

/-- Observable effects of one run of the download onclick besides the DOM:
whether a client-side download was triggered and under which filename,
and whether the transient anchor was removed and the object URL revoked. -/
structure PdfEffects where
  downloadFilename : Option String
  anchorRemoved : Bool
  urlRevoked : Bool
  deriving Repr, DecidableEq

/-- No download, no anchor, no URL: the effects of every non-success path. -/
def noPdfEffects : PdfEffects :=
  { downloadFilename := none, anchorRemoved := false, urlRevoked := false }

/-- One invocation of `downloadButton.onclick` as a pure transition: it
writes only the status text of the DOM and produces download effects.
The closure supplies the captured articles, district and date; the catch
of lines 151-154 writes `pdfError.message` with no name dispatch. -/
def pdfOnClick (jsonParse : String → Except String NewsResultJson)
    (closure : PdfClosure) (outcome : PdfOutcome) (dom0 : Dom) :
    Dom × PdfEffects :=
  let dom1 := { dom0 with status := "Generating PDF..." }
  match outcome with
  | .thrown _ message => ({ dom1 with status := message }, noPdfEffects)
  | .got ok hasBody bodyRead =>
    let pdfErrorText := bodyRead.getD "No response body"
    if ok = false then
      let userMessage :=
        match jsonParse pdfErrorText with
        | .ok pdfError =>
          match pdfError.error with
          | some s => if s = "" then genericPdfFailure
                      else "PDF generation failed: " ++ s
          | none => genericPdfFailure
        | .error _ => genericPdfFailure
      ({ dom1 with status := userMessage }, noPdfEffects)
    else if hasBody then
      ({ dom1 with status := bodyAlreadyReadMessage }, noPdfEffects)
    else
      ({ dom1 with status := "PDF downloaded successfully" },
       { downloadFilename :=
           some ("news_digest_" ++ closure.district ++ "_" ++ closure.date ++ ".pdf")
         anchorRemoved := true
         urlRevoked := true })

/-! The login-form submit handler (`static/js/login.js`). -/

/-- Parsed JSON body of a `/login` response. -/
structure LoginResult where
  success : Bool
  message : Option String
  deriving Repr, DecidableEq

/-- Outcome of the login fetch plus `response.json()`: either something
throws (network failure or malformed JSON), or a parsed body arrives. -/
inductive LoginOutcome where
  | thrown
  | parsed (r : LoginResult)
  deriving Repr, DecidableEq

/-- DOM surface of the login page: the error-message text and the location
of the browsing context (`some target` after a navigation). -/
structure LoginDom where
  errorText : String
  location : Option String
  deriving Repr, DecidableEq

/-- One invocation of the login-form submit handler. -/
def loginHandler (outcome : LoginOutcome) (dom0 : LoginDom) : LoginDom :=
  match outcome with
  | .thrown => { dom0 with errorText := "An error occurred" }
  | .parsed r =>
    if r.success then { dom0 with location := some "/dashboard" }
    else
      { dom0 with errorText :=
          match r.message with
          | some m => if m = "" then "Login failed" else m
          | none => "Login failed" }

/-! Helper lemmas. -/

lemma ne_empty_of_dateRegexTest {s : String} (h : dateRegexTest s = true) :
    s ≠ "" := by
  intro he
  subst he
  exact absurd h (by decide)

lemma dateRegexTest_of_match {s : String} {x : Nat × Nat × Nat}
    (h : dateRegexMatch s = some x) : dateRegexTest s = true := by
  simp [dateRegexTest, h]

lemma futureRejected_eq {date : String} {y m d : Nat}
    (hm : dateRegexMatch date = some (y, m, d)) (hv : validDate y m d = true)
    (nowMs : Int) :
    futureRejected date nowMs = decide (nowMs < istEndOfDayMs y m d) := by
  simp [futureRejected, jsDateMs, hm, hv]

lemma fetchNewsHandler_valid (jp : String → Except String NewsResultJson)
    {district date : String} {nowMs : Int} (outcome : FetchOutcome) (dom0 : Dom)
    (hd : district ≠ "") (ht : dateRegexTest date = true)
    (hf : futureRejected date nowMs = false) :
    fetchNewsHandler jp district date nowMs outcome dom0 =
      ⟨fetchPhase jp district date outcome
          { dom0 with status := "Fetching news..." }, true⟩ := by
  have hne : date ≠ "" := ne_empty_of_dateRegexTest ht
  unfold fetchNewsHandler
  rw [if_neg hd, if_neg hne, if_neg (by simp [ht]), if_neg (by simp [hf])]

/-! Theorems for the claims. -/

/-- C4: input validation is sequential with first failure winning and no
network call made on any failure: empty district gives "Please select a
district"; else empty date gives "Please select a date"; else a date not
matching the regex gives "Invalid date format (use YYYY-MM-DD)"; in each
case the handler stops (no request is issued, only the status changes). -/
theorem c4_validation_sequential (jp : String → Except String NewsResultJson)
    (district date : String) (nowMs : Int) (outcome : FetchOutcome) (dom0 : Dom) :
    (district = "" →
      fetchNewsHandler jp district date nowMs outcome dom0 =
        ⟨{ dom0 with status := "Please select a district" }, false⟩) ∧
    (district ≠ "" → date = "" →
      fetchNewsHandler jp district date nowMs outcome dom0 =
        ⟨{ dom0 with status := "Please select a date" }, false⟩) ∧
    (district ≠ "" → date ≠ "" → dateRegexTest date = false →
      fetchNewsHandler jp district date nowMs outcome dom0 =
        ⟨{ dom0 with status := "Invalid date format (use YYYY-MM-DD)" }, false⟩) := by
  refine ⟨?_, ?_, ?_⟩ <;> intros <;> simp [fetchNewsHandler, *]

/-- Witness for C4 at concrete inputs: each of the three validation
failures is exercised. -/
theorem c4_validation_sequential_witness :
    fetchNewsHandler (fun _ => .error "e") "" "2024-01-01" 0
        (.thrown "x" "y") ⟨"", [], false, none⟩ =
      ⟨⟨"Please select a district", [], false, none⟩, false⟩ ∧
    fetchNewsHandler (fun _ => .error "e") "Pune" "" 0
        (.thrown "x" "y") ⟨"", [], false, none⟩ =
      ⟨⟨"Please select a date", [], false, none⟩, false⟩ ∧
    fetchNewsHandler (fun _ => .error "e") "Pune" "2024-1-5" 0
        (.thrown "x" "y") ⟨"", [], false, none⟩ =
      ⟨⟨"Invalid date format (use YYYY-MM-DD)", [], false, none⟩, false⟩ :=
  ⟨(c4_validation_sequential (fun _ => .error "e") "" "2024-01-01" 0
      (.thrown "x" "y") ⟨"", [], false, none⟩).1 rfl,
   (c4_validation_sequential (fun _ => .error "e") "Pune" "" 0
      (.thrown "x" "y") ⟨"", [], false, none⟩).2.1 (by decide) rfl,
   (c4_validation_sequential (fun _ => .error "e") "Pune" "2024-1-5" 0
      (.thrown "x" "y") ⟨"", [], false, none⟩).2.2 (by decide) (by decide) (by decide)⟩

/-- C1 counterexample: at the instant 2024-01-15T12:00:00+05:30 (epoch ms
1705300200000) the current IST calendar date is 2024-01-15, yet the handler
rejects the date string "2024-01-15" with "Date cannot be in the future"
and makes no network call — the check does not pass for today's date. -/
theorem c1_counterexample :
    istCalendarDate 1705300200000 = (2024, 1, 15) ∧
    dateRegexMatch "2024-01-15" = some (2024, 1, 15) ∧
    fetchNewsHandler (fun _ => .error "unused") "Pune" "2024-01-15" 1705300200000
        (.got true (some "\x7b\x7d")) ⟨"", [], false, none⟩ =
      ⟨⟨"Date cannot be in the future", [], false, none⟩, false⟩ := by
  refine ⟨by decide, by decide, ?_⟩
  decide

/-- C1 amended: for a syntactically valid calendar date the check rejects
(with "Date cannot be in the future" and no network call) exactly when the
date's 23:59:59 UTC+05:30 instant is strictly after the current instant,
and the fetch proceeds exactly when that instant is at or before the
current instant — in particular today's IST date is rejected at every
instant strictly before its own 23:59:59 IST. -/
theorem c1_future_check (jp : String → Except String NewsResultJson)
    (district date : String) (y m d : Nat) (nowMs : Int)
    (outcome : FetchOutcome) (dom0 : Dom)
    (hd : district ≠ "") (hm : dateRegexMatch date = some (y, m, d))
    (hv : validDate y m d = true) :
    (((fetchNewsHandler jp district date nowMs outcome dom0).networkCalled = false ∧
      (fetchNewsHandler jp district date nowMs outcome dom0).dom.status =
        "Date cannot be in the future") ↔ nowMs < istEndOfDayMs y m d) ∧
    ((fetchNewsHandler jp district date nowMs outcome dom0).networkCalled = true ↔
      istEndOfDayMs y m d ≤ nowMs) := by
  have ht : dateRegexTest date = true := dateRegexTest_of_match hm
  have hne : date ≠ "" := ne_empty_of_dateRegexTest ht
  have hfr : futureRejected date nowMs = decide (nowMs < istEndOfDayMs y m d) :=
    futureRejected_eq hm hv nowMs
  by_cases hlt : nowMs < istEndOfDayMs y m d
  · have hrej : futureRejected date nowMs = true := by rw [hfr]; simp [hlt]
    unfold fetchNewsHandler
    rw [if_neg hd, if_neg hne, if_neg (by simp [ht]), if_pos (by simp [hrej])]
    constructor
    · simpa using hlt
    · simp only [show ¬ istEndOfDayMs y m d ≤ nowMs from not_le.mpr hlt]
      simp
  · have hacc : futureRejected date nowMs = false := by rw [hfr]; simp [hlt]
    rw [fetchNewsHandler_valid jp outcome dom0 hd ht hacc]
    constructor
    · simpa using hlt
    · simpa using not_lt.mp hlt

/-- Witness for C1 amended: the past date "2024-01-14" seen from
2024-01-15T12:00:00+05:30 passes the check and the fetch proceeds. -/
theorem c1_future_check_witness :
    validDate 2024 1 14 = true ∧
    (fetchNewsHandler (fun _ => .error "e") "Pune" "2024-01-14" 1705300200000
        (.got true (some "b")) ⟨"", [], false, none⟩).networkCalled = true :=
  ⟨by decide,
   (c1_future_check (fun _ => .error "e") "Pune" "2024-01-14" 2024 1 14
      1705300200000 (.got true (some "b")) ⟨"", [], false, none⟩
      (by decide) (by decide) (by decide)).2.mpr (by decide)⟩

/-- C2 counterexample: a non-2xx `/fetch_news` response whose body parses
to `{"error":"rate limited"}` produces the status "Error: rate limited" —
the server text is prefixed by the outer catch, not shown verbatim. -/
theorem c2_counterexample :
    (fetchNewsHandler (fun _ => .ok ⟨some "rate limited", none, false⟩)
        "Pune" "2024-01-14" 1705300200000
        (.got false (some "\x7b\"error\":\"rate limited\"\x7d"))
        ⟨"", [], false, none⟩).dom.status = "Error: rate limited" ∧
    ("Error: rate limited" : String) ≠ "rate limited" := by
  constructor
  · decide
  · decide

/-- C2 amended: for every non-2xx `/fetch_news` response whose body parses
as JSON with a non-empty `error` field, the status shown is the
server-supplied error string prefixed with "Error: " by the outer catch
(the server text is surfaced, not the generic fallback, but not verbatim);
the table is cleared and the download control hidden. -/
theorem c2_non2xx_error_passthrough (jp : String → Except String NewsResultJson)
    (district date : String) (nowMs : Int) (bodyRead : Option String)
    (dom0 : Dom) (r : NewsResultJson) (e : String)
    (hd : district ≠ "") (ht : dateRegexTest date = true)
    (hf : futureRejected date nowMs = false)
    (hjp : jp (bodyRead.getD "No response body") = .ok r)
    (he : r.error = some e) (hne : e ≠ "") :
    fetchNewsHandler jp district date nowMs (.got false bodyRead) dom0 =
      ⟨⟨"Error: " ++ e, [], false, dom0.bound⟩, true⟩ := by
  rw [fetchNewsHandler_valid jp _ dom0 hd ht hf]
  simp [fetchPhase, hjp, he, hne, catchDom]

/-- Witness for C2 amended at a concrete response: body
`{"error":"rate limited"}` yields the status "Error: rate limited". -/
theorem c2_non2xx_error_passthrough_witness :
    fetchNewsHandler (fun _ => .ok ⟨some "rate limited", some [], false⟩)
        "Nagpur" "2024-01-10" 1705300200000
        (.got false (some "\x7b\"error\":\"rate limited\"\x7d"))
        ⟨"", [], false, none⟩ =
      ⟨⟨"Error: rate limited", [], false, none⟩, true⟩ :=
  c2_non2xx_error_passthrough (fun _ => .ok ⟨some "rate limited", some [], false⟩)
    "Nagpur" "2024-01-10" 1705300200000
    (some "\x7b\"error\":\"rate limited\"\x7d") ⟨"", [], false, none⟩
    ⟨some "rate limited", some [], false⟩ "rate limited"
    (by decide) (by decide) (by decide) rfl rfl (by decide)

/-- C3 counterexample: a validation failure (empty district) leaves the
previously rendered row in place — the handler returns before touching the
table, so not every error path clears the prior rows. -/
theorem c3_counterexample :
    (fetchNewsHandler (fun _ => .error "e") "" "2024-01-15" 0
        (.got true (some "b"))
        ⟨"", [⟨"u", "t", "_blank", "c", "s", "p", "None"⟩], true, none⟩).dom.rows =
      [⟨"u", "t", "_blank", "c", "s", "p", "None"⟩] ∧
    ([(⟨"u", "t", "_blank", "c", "s", "p", "None"⟩ : Row)] : List Row) ≠ [] := by
  constructor
  · decide
  · decide

/-- C3 amended: a validation failure makes no network call and leaves the
previously rendered rows untouched; every invocation that reaches the
network either clears the rows (every fetch-phase error, the server-error
body, and the empty-result body) or replaces them with exactly one row per
article of the newly fetched successful result, in input order. -/
theorem c3_rows_invariant (jp : String → Except String NewsResultJson)
    (district date : String) (nowMs : Int) (outcome : FetchOutcome) (dom0 : Dom) :
    ((fetchNewsHandler jp district date nowMs outcome dom0).networkCalled = false →
      (fetchNewsHandler jp district date nowMs outcome dom0).dom.rows = dom0.rows) ∧
    ((fetchNewsHandler jp district date nowMs outcome dom0).networkCalled = true →
      (fetchNewsHandler jp district date nowMs outcome dom0).dom.rows = [] ∨
      ∃ bodyRead r, outcome = FetchOutcome.got true bodyRead ∧
        jp (bodyRead.getD "No response body") = Except.ok r ∧
        jsTruthy r.error = false ∧ (r.articles.getD []).length ≠ 0 ∧
        (fetchNewsHandler jp district date nowMs outcome dom0).dom.rows =
          (r.articles.getD []).map renderRow) := by
  unfold fetchNewsHandler
  split
  · simp
  · split
    · simp
    · split
      · simp
      · split
        · simp
        · refine ⟨by simp, fun _ => ?_⟩
          rcases outcome with ⟨name, message⟩ | ⟨ok, bodyRead⟩
          · left; simp [fetchPhase, catchDom]
          · cases ok
            · left; simp [fetchPhase, catchDom]
            · rcases hjp : jp (bodyRead.getD "No response body") with msg | r
              · left; simp [fetchPhase, hjp, catchDom]
              · by_cases he : jsTruthy r.error = true
                · left; simp [fetchPhase, hjp, he]
                · by_cases hl : (r.articles.getD []).length = 0
                  · left; simp [fetchPhase, hjp, he, hl]
                  · right
                    refine ⟨bodyRead, r, rfl, hjp, by simpa using he, hl, ?_⟩
                    simp [fetchPhase, hjp, he, hl]

/-- Witness for C3 amended: a validation failure at a concrete input
leaves the concrete prior row in place. -/
theorem c3_rows_invariant_witness :
    (fetchNewsHandler (fun _ => .error "e") "Pune" "" 0 (.thrown "x" "y")
        ⟨"ok", [⟨"h", "l", "_blank", "c", "s", "p", "None"⟩], true, none⟩).dom.rows =
      [⟨"h", "l", "_blank", "c", "s", "p", "None"⟩] :=
  (c3_rows_invariant (fun _ => .error "e") "Pune" "" 0 (.thrown "x" "y")
      ⟨"ok", [⟨"h", "l", "_blank", "c", "s", "p", "None"⟩], true, none⟩).1 (by decide)

/-- C10: a 2xx `/fetch_news` response whose body is not valid JSON makes
`JSON.parse` throw; the outer catch receives the `SyntaxError`, sets the
status to "Error: " followed by the parse-error message, clears the table
and hides the download control — no exception escapes the handler. -/
theorem c10_parse_error_caught (jp : String → Except String NewsResultJson)
    (district date : String) (nowMs : Int) (bodyRead : Option String)
    (dom0 : Dom) (pmsg : String)
    (hd : district ≠ "") (ht : dateRegexTest date = true)
    (hf : futureRejected date nowMs = false)
    (hjp : jp (bodyRead.getD "No response body") = .error pmsg) :
    fetchNewsHandler jp district date nowMs (.got true bodyRead) dom0 =
      ⟨⟨"Error: " ++ pmsg, [], false, dom0.bound⟩, true⟩ := by
  rw [fetchNewsHandler_valid jp _ dom0 hd ht hf]
  simp [fetchPhase, hjp, catchDom]

/-- Witness for C10 at a concrete non-JSON body. -/
theorem c10_parse_error_caught_witness :
    fetchNewsHandler (fun _ => .error "Unexpected token N")
        "Pune" "2024-01-10" 1705300200000 (.got true (some "Not JSON"))
        ⟨"", [], false, none⟩ =
      ⟨⟨"Error: Unexpected token N", [], false, none⟩, true⟩ :=
  c10_parse_error_caught (fun _ => .error "Unexpected token N")
    "Pune" "2024-01-10" 1705300200000 (some "Not JSON") ⟨"", [], false, none⟩
    "Unexpected token N" (by decide) (by decide) (by decide) rfl

lemma renderRelDiv_length (r : RelatedArticle) : 14 ≤ (renderRelDiv r).length := by
  unfold renderRelDiv
  simp only [String.length_append]
  have h14 : ("<div><a href=\"" : String).length = 14 := rfl
  omega

lemma relatedCellStr_eq_none_iff (rels : List RelatedArticle) :
    relatedCellStr rels = "None" ↔ rels = [] := by
  cases rels with
  | nil => simp [relatedCellStr, joinStr]
  | cons r rs =>
    have hlen : 14 ≤ (joinStr ((r :: rs).map renderRelDiv)).length := by
      simp only [List.map_cons, joinStr, String.length_append]
      have := renderRelDiv_length r
      omega
    constructor
    · intro h
      have hj : joinStr ((r :: rs).map renderRelDiv) ≠ "" := by
        intro he
        rw [he] at hlen
        exact absurd hlen (by decide)
      simp only [relatedCellStr, if_neg hj] at h
      rw [h] at hlen
      exact absurd hlen (by decide)
    · intro h
      exact absurd h (List.cons_ne_nil r rs)

/-- C5: a 2xx `/fetch_news` response whose parsed body carries a truthy
`error` field sets the status to "Server error: <error>", clears the
table, hides the download control and stops (the onclick binding is left
as it was); a 2xx response whose `articles` is absent or empty sets the
status to "No articles found for the selected district and date.", clears
the table, hides the download control and stops. -/
theorem c5_server_error_and_empty (jp : String → Except String NewsResultJson)
    (district date : String) (nowMs : Int) (bodyRead : Option String)
    (dom0 : Dom) (r : NewsResultJson)
    (hd : district ≠ "") (ht : dateRegexTest date = true)
    (hf : futureRejected date nowMs = false)
    (hjp : jp (bodyRead.getD "No response body") = .ok r) :
    (∀ e, r.error = some e → e ≠ "" →
      fetchNewsHandler jp district date nowMs (.got true bodyRead) dom0 =
        ⟨⟨"Server error: " ++ e, [], false, dom0.bound⟩, true⟩) ∧
    (jsTruthy r.error = false → (r.articles.getD []).length = 0 →
      fetchNewsHandler jp district date nowMs (.got true bodyRead) dom0 =
        ⟨⟨"No articles found for the selected district and date.", [], false,
          dom0.bound⟩, true⟩) := by
  rw [fetchNewsHandler_valid jp _ dom0 hd ht hf]
  constructor
  · intro e he hne
    simp [fetchPhase, hjp, he, hne, jsTruthy]
  · intro he hl
    simp [fetchPhase, hjp, he, hl]

/-- Witness for C5 at concrete responses: a server-error body and an
empty-articles body. -/
theorem c5_server_error_and_empty_witness :
    fetchNewsHandler (fun _ => .ok ⟨some "boom", none, false⟩)
        "Pune" "2024-01-10" 1705300200000
        (.got true (some "\x7b\"error\":\"boom\"\x7d")) ⟨"", [], false, none⟩ =
      ⟨⟨"Server error: boom", [], false, none⟩, true⟩ ∧
    fetchNewsHandler (fun _ => .ok ⟨none, some [], false⟩)
        "Pune" "2024-01-10" 1705300200000
        (.got true (some "\x7b\"articles\":[]\x7d")) ⟨"", [], false, none⟩ =
      ⟨⟨"No articles found for the selected district and date.", [], false,
        none⟩, true⟩ :=
  ⟨(c5_server_error_and_empty (fun _ => .ok ⟨some "boom", none, false⟩)
      "Pune" "2024-01-10" 1705300200000 (some "\x7b\"error\":\"boom\"\x7d")
      ⟨"", [], false, none⟩ ⟨some "boom", none, false⟩
      (by decide) (by decide) (by decide) rfl).1 "boom" rfl (by decide),
   (c5_server_error_and_empty (fun _ => .ok ⟨none, some [], false⟩)
      "Pune" "2024-01-10" 1705300200000 (some "\x7b\"articles\":[]\x7d")
      ⟨"", [], false, none⟩ ⟨none, some [], false⟩
      (by decide) (by decide) (by decide) rfl).2 rfl rfl⟩

/-- C6: a 2xx `/fetch_news` response with a non-empty article list replaces
the rows with exactly one row per article in input order; each row carries
the title or "No Title" as link label, the url or "#" as href, target
`_blank`, the category or "Unknown", the source name or "Unknown Source",
the publish timestamp or "Unknown Date", and a related-articles cell that
shows the rendered related links and is the literal "None" exactly when
the related list is empty; the download control is shown (it is shown iff
`articles.length` is non-zero, which holds here) and the onclick closure
captures the fetched articles. -/
theorem c6_render (jp : String → Except String NewsResultJson)
    (district date : String) (nowMs : Int) (bodyRead : Option String)
    (dom0 : Dom) (r : NewsResultJson)
    (hd : district ≠ "") (ht : dateRegexTest date = true)
    (hf : futureRejected date nowMs = false)
    (hjp : jp (bodyRead.getD "No response body") = .ok r)
    (he : jsTruthy r.error = false)
    (hl : (r.articles.getD []).length ≠ 0) :
    fetchNewsHandler jp district date nowMs (.got true bodyRead) dom0 =
      ⟨⟨(if r.is_mock then mockMessage district else "Articles loaded successfully."),
        (r.articles.getD []).map renderRow, true,
        some ⟨r.articles.getD [], district, date⟩⟩, true⟩ ∧
    (∀ a : Article, renderRow a =
      ⟨jsOr a.url "#", jsOr a.title "No Title", "_blank", jsOr a.category "Unknown",
       sourceNameOf a.source, jsOr a.publishedAt "Unknown Date",
       relatedCellStr (a.related_articles.getD [])⟩) ∧
    (∀ rels : List RelatedArticle, relatedCellStr rels = "None" ↔ rels = []) := by
  refine ⟨?_, fun a => rfl, relatedCellStr_eq_none_iff⟩
  rw [fetchNewsHandler_valid jp _ dom0 hd ht hf]
  simp [fetchPhase, hjp, he, hl]

/-- Witness for C6: one concrete article (title "A", url "http://x",
category "Sports", source "S", published 2024-01-01, no related articles)
renders as exactly one row with those values and cell "None". -/
theorem c6_render_witness :
    fetchNewsHandler
        (fun _ => .ok ⟨none,
          some [⟨some "A", some "http://x", some "Sports", some ⟨some "S"⟩,
                 some "2024-01-01", some []⟩], false⟩)
        "Pune" "2024-01-10" 1705300200000 (.got true (some "body"))
        ⟨"", [], false, none⟩ =
      ⟨⟨"Articles loaded successfully.",
        [⟨"http://x", "A", "_blank", "Sports", "S", "2024-01-01", "None"⟩], true,
        some ⟨[⟨some "A", some "http://x", some "Sports", some ⟨some "S"⟩,
               some "2024-01-01", some []⟩], "Pune", "2024-01-10"⟩⟩, true⟩ := by
  rw [(c6_render
      (fun _ => .ok ⟨none,
        some [⟨some "A", some "http://x", some "Sports", some ⟨some "S"⟩,
               some "2024-01-01", some []⟩], false⟩)
      "Pune" "2024-01-10" 1705300200000 (some "body") ⟨"", [], false, none⟩
      ⟨none,
        some [⟨some "A", some "http://x", some "Sports", some ⟨some "S"⟩,
               some "2024-01-01", some []⟩], false⟩
      (by decide) (by decide) (by decide) rfl rfl (by decide)).1]
  decide

/-- C7: in the PDF sub-flow, a non-2xx response whose body parses with a
truthy `error` field sets the status to "PDF generation failed: <error>";
a non-JSON body, a missing field, or an empty-string field gives the
generic "Failed to generate PDF. Please try again later."; and a thrown
error surfaces its own message; in every failure case the DOM is changed
only in the status text (rows, visibility and binding are untouched) and
no download effects occur. -/
theorem c7_pdf_error_messages (jp : String → Except String NewsResultJson)
    (closure : PdfClosure) (dom0 : Dom) (hasBody : Bool)
    (bodyRead : Option String) :
    (∀ r e, jp (bodyRead.getD "No response body") = .ok r → r.error = some e →
      e ≠ "" →
      pdfOnClick jp closure (.got false hasBody bodyRead) dom0 =
        ({ dom0 with status := "PDF generation failed: " ++ e }, noPdfEffects)) ∧
    (∀ msg, jp (bodyRead.getD "No response body") = .error msg →
      pdfOnClick jp closure (.got false hasBody bodyRead) dom0 =
        ({ dom0 with status := genericPdfFailure }, noPdfEffects)) ∧
    (∀ r, jp (bodyRead.getD "No response body") = .ok r →
      jsTruthy r.error = false →
      pdfOnClick jp closure (.got false hasBody bodyRead) dom0 =
        ({ dom0 with status := genericPdfFailure }, noPdfEffects)) ∧
    (∀ name message, pdfOnClick jp closure (.thrown name message) dom0 =
        ({ dom0 with status := message }, noPdfEffects)) := by
  refine ⟨?_, ?_, ?_, ?_⟩
  · intro r e hjp he hne
    simp [pdfOnClick, hjp, he, hne]
  · intro msg hjp
    simp [pdfOnClick, hjp]
  · intro r hjp he
    cases hre : r.error with
    | none => simp [pdfOnClick, hjp, hre]
    | some s =>
      have hs : s = "" := by simpa [jsTruthy, hre] using he
      simp [pdfOnClick, hjp, hre, hs]
  · intro name message
    simp [pdfOnClick]

/-- Witness for C7 at concrete responses: body `{"error":"bad input"}`
yields "PDF generation failed: bad input"; a non-JSON body yields the
generic message. -/
theorem c7_pdf_error_messages_witness :
    pdfOnClick (fun _ => .ok ⟨some "bad input", none, false⟩)
        ⟨[], "Pune", "2024-01-10"⟩
        (.got false true (some "\x7b\"error\":\"bad input\"\x7d"))
        ⟨"ok", [⟨"h", "l", "_blank", "c", "s", "p", "None"⟩], true, none⟩ =
      (⟨"PDF generation failed: bad input",
        [⟨"h", "l", "_blank", "c", "s", "p", "None"⟩], true, none⟩,
       noPdfEffects) ∧
    pdfOnClick (fun _ => .error "Unexpected token")
        ⟨[], "Pune", "2024-01-10"⟩ (.got false true (some "plain text"))
        ⟨"ok", [], true, none⟩ =
      (⟨"Failed to generate PDF. Please try again later.", [], true, none⟩,
       noPdfEffects) :=
  ⟨(c7_pdf_error_messages (fun _ => .ok ⟨some "bad input", none, false⟩)
      ⟨[], "Pune", "2024-01-10"⟩
      ⟨"ok", [⟨"h", "l", "_blank", "c", "s", "p", "None"⟩], true, none⟩ true
      (some "\x7b\"error\":\"bad input\"\x7d")).1
      ⟨some "bad input", none, false⟩ "bad input" rfl rfl (by decide),
   (c7_pdf_error_messages (fun _ => .error "Unexpected token")
      ⟨[], "Pune", "2024-01-10"⟩ ⟨"ok", [], true, none⟩ true
      (some "plain text")).2.1 "Unexpected token" rfl⟩

/-- C8: on a 2xx `/generate_pdf` response with a non-null body the earlier
`pdfResponse.text()` has already consumed the body stream, so
`pdfResponse.blob()` rejects: the status becomes the body-already-read
error message instead of "PDF downloaded successfully", no client-side
download is triggered, and no anchor removal or URL revocation happens
(only the status text of the DOM changes). -/
theorem c8_blob_after_text_rejects (jp : String → Except String NewsResultJson)
    (closure : PdfClosure) (dom0 : Dom) (bodyRead : Option String) :
    pdfOnClick jp closure (.got true true bodyRead) dom0 =
      ({ dom0 with status := bodyAlreadyReadMessage }, noPdfEffects) ∧
    bodyAlreadyReadMessage ≠ "PDF downloaded successfully" ∧
    noPdfEffects.downloadFilename = none := by
  refine ⟨?_, by decide, rfl⟩
  simp [pdfOnClick]

/-- C9: the login handler navigates to `/dashboard` on `success: true`;
otherwise it shows the server-supplied message (verbatim when present and
non-empty) or "Login failed"; any thrown error (network failure or
malformed JSON) shows "An error occurred". -/
theorem c9_login (dom0 : LoginDom) (r : LoginResult) :
    loginHandler .thrown dom0 = { dom0 with errorText := "An error occurred" } ∧
    (r.success = true →
      loginHandler (.parsed r) dom0 = { dom0 with location := some "/dashboard" }) ∧
    (r.success = false →
      loginHandler (.parsed r) dom0 =
        { dom0 with errorText := jsOr r.message "Login failed" }) ∧
    (r.success = false → ∀ m, r.message = some m → m ≠ "" →
      (loginHandler (.parsed r) dom0).errorText = m) := by
  refine ⟨rfl, fun hs => by simp [loginHandler, hs], fun hs => ?_, ?_⟩
  · cases hm : r.message with
    | none => simp [loginHandler, hs, jsOr, hm]
    | some m => simp [loginHandler, hs, jsOr, hm]
  · intro hs m hm hne
    simp [loginHandler, hs, hm, hne]

/-- Witness for C9 at concrete responses: `{success:true}` navigates to
`/dashboard`, `{success:false, message:"bad creds"}` shows "bad creds",
and a thrown error shows "An error occurred". -/
theorem c9_login_witness :
    loginHandler (.parsed ⟨true, none⟩) ⟨"", none⟩ = ⟨"", some "/dashboard"⟩ ∧
    loginHandler (.parsed ⟨false, some "bad creds"⟩) ⟨"", none⟩ =
      ⟨"bad creds", none⟩ ∧
    loginHandler .thrown ⟨"", none⟩ = ⟨"An error occurred", none⟩ :=
  ⟨(c9_login ⟨"", none⟩ ⟨true, none⟩).2.1 rfl,
   (c9_login ⟨"", none⟩ ⟨false, some "bad creds"⟩).2.2.1 rfl,
   (c9_login ⟨"", none⟩ ⟨false, some "bad creds"⟩).1⟩

end NewsApi

